import Mathlib

/-!
Shallow embedding of the PyDoctor troubleshooter
(src/PyDoctor/troubleshoot.py) and proofs about its diagnostic and repair
pipeline.  External effects (psutil reads, socket probes, HTTP GETs,
subprocess spawns) are modelled by an `Env` record holding the outcome of
each call: `Except String α` for a Python expression that may raise
(`.error msg` models a raised exception with message `msg`), and
`Option CompletedProcess` for `run_command`, which catches everything and
returns `None` on failure.  Numbers reported by psutil (percentages,
seconds) are modelled as `Rat`.
-/

namespace PyDoctor

/-- Result record of a completed `subprocess.run` call, as used by
`TroubleshootManager.run_command`. -/
structure CompletedProcess where
  returncode : Int
  stdout : String
  stderr : String
deriving Repr, DecidableEq

/-- Outcome of a sub-check in the report: either its populated dictionary or
the `{'error': msg}` marker produced by the check's own `except` clause. -/
inductive CheckOut (α : Type) where
  | ok (a : α)
  | err (msg : String)
deriving Repr, DecidableEq

/-- Boolean view of an `Except` outcome: `true` when the call returned
normally, `false` when it raised. -/
def isOkB {ε α : Type} : Except ε α → Bool
  | .ok _ => true
  | .error _ => false

/-- Environment of external-call outcomes for one run of the diagnostic
pipeline.  Each field is the result of the corresponding call site in
`troubleshoot.py`. -/
structure Env where
  /-- psutil.cpu_percent(interval=1) -/
  cpuPercent : Except String Rat
  /-- psutil.virtual_memory(): (percent, available GB) -/
  memStats : Except String (Rat × Rat)
  /-- psutil.disk_usage('/'): (percent, free GB) -/
  diskStats : Except String (Rat × Rat)
  /-- socket.create_connection(("8.8.8.8", 53), timeout=3) -/
  sockConn : Except String Unit
  /-- socket.gethostbyname("python.org") -/
  dnsResolve : Except String Unit
  /-- requests.get("https://pypi.org", timeout=5): (status_code, elapsed) -/
  pypiGet : Except String (Nat × Rat)
  /-- requests.get("https://github.com", timeout=5): (status_code, elapsed) -/
  githubGet : Except String (Nat × Rat)
  /-- TLS handshake probe against python.org:443 -/
  sslProbe : Except String Unit
  /-- os.environ.get('http_proxy', '') -/
  httpProxy : String
  /-- os.environ.get('https_proxy', '') -/
  httpsProxy : String
  /-- os.environ.get('no_proxy', '') -/
  noProxy : String
  /-- requests.get("https://www.google.com", timeout=5), elapsed wall time -/
  googleGet : Except String Rat
  /-- run_command('pip --version', silent=True) -/
  pipVersionOut : Option CompletedProcess
  /-- run_command('pip list', silent=True) -/
  pipListOut : Option CompletedProcess
  /-- site.getsitepackages()[0] inspection in check_site_packages:
  (path, exists, writable, size) -/
  sitePkgInfo : Except String (String × Bool × Bool × Nat)
  /-- sys.version -/
  pythonVersion : String

/-- Resource metrics dictionary built by `check_system_resources` when no
read raises. -/
structure Resources where
  cpu_usage : Rat
  memory_usage : Rat
  available_memory : Rat
  disk_usage : Rat
  free_disk_space : Rat
deriving Repr, DecidableEq

/-- Embedding of `TroubleshootManager.check_system_resources`: the three
psutil reads run in order inside a single `try`; the first raise discards the
partial dictionary and returns the error marker. -/
def check_system_resources (e : Env) : CheckOut Resources :=
  match e.cpuPercent with
  | .error m => .err ("Error checking system resources: " ++ m)
  | .ok cpu =>
    match e.memStats with
    | .error m => .err ("Error checking system resources: " ++ m)
    | .ok (mp, avail) =>
      match e.diskStats with
      | .error m => .err ("Error checking system resources: " ++ m)
      | .ok (dp, free) =>
        .ok { cpu_usage := cpu, memory_usage := mp, available_memory := avail,
              disk_usage := dp, free_disk_space := free }

/-- Result dictionary of `check_network_connectivity`.  `ssl_working` is
`none` when the key was never set (the code only sets it on success);
`latency` sub-keys likewise. -/
structure NetworkResults where
  internet_connection : Bool
  pypi_access : Bool
  github_access : Bool
  dns_resolution : Bool
  latency_pypi : Option Rat
  latency_github : Option Rat
  latency_google : Option Rat
  ssl_working : Option Bool
  proxy_http : String
  proxy_https : String
  proxy_no : String
  errors : List String
deriving Repr, DecidableEq

/-- Initial value of the `results` dictionary in
`check_network_connectivity`. -/
def initNetworkResults : NetworkResults :=
  { internet_connection := false, pypi_access := false, github_access := false,
    dns_resolution := false, latency_pypi := none, latency_github := none,
    latency_google := none, ssl_working := none,
    proxy_http := "", proxy_https := "", proxy_no := "", errors := [] }

/-- Embedding of `TroubleshootManager.check_network_connectivity`: seven
probes run in order, each wrapped in its own `try`/`except` that appends a
message to `errors` on failure.  The outer `try` is never reached by a probe
failure. -/
def check_network_connectivity (e : Env) : NetworkResults :=
  let r := initNetworkResults
  let r := match e.sockConn with
    | .ok _ => { r with internet_connection := true }
    | .error m => { r with errors := r.errors ++ ["Internet connection error: " ++ m] }
  let r := match e.dnsResolve with
    | .ok _ => { r with dns_resolution := true }
    | .error m => { r with errors := r.errors ++ ["DNS resolution error: " ++ m] }
  let r := match e.pypiGet with
    | .ok (code, lat) =>
        { r with pypi_access := code == 200, latency_pypi := some lat }
    | .error m => { r with errors := r.errors ++ ["PyPI access error: " ++ m] }
  let r := match e.githubGet with
    | .ok (code, lat) =>
        { r with github_access := code == 200, latency_github := some lat }
    | .error m => { r with errors := r.errors ++ ["GitHub access error: " ++ m] }
  let r := match e.sslProbe with
    | .ok _ => { r with ssl_working := some true }
    | .error m => { r with errors := r.errors ++ ["SSL error: " ++ m] }
  let r := { r with proxy_http := e.httpProxy, proxy_https := e.httpsProxy,
                    proxy_no := e.noProxy }
  let r := match e.googleGet with
    | .ok lat => { r with latency_google := some lat }
    | .error m => { r with errors := r.errors ++ ["Speed test error: " ++ m] }
  r

/-- Embedding of `TroubleshootManager.get_pip_version`: `run_command`
never raises, so only the `None` / nonzero-returncode paths matter. -/
def get_pip_version (e : Env) : String :=
  match e.pipVersionOut with
  | some cp => if cp.returncode == 0 then cp.stdout.trim else "Unknown"
  | none => "Unknown"

/-- Embedding of `TroubleshootManager.get_installed_packages`: split the
output on newlines and skip the two header rows. -/
def get_installed_packages (e : Env) : List String :=
  match e.pipListOut with
  | some cp =>
      if cp.returncode == 0 then (cp.stdout.trim.splitOn "\n").drop 2 else []
  | none => []

/-- The site-packages status dictionary of `check_site_packages`. -/
structure SitePackages where
  path : String
  pathPresent : Bool
  writable : Bool
  size : Nat
deriving Repr, DecidableEq

/-- Embedding of `TroubleshootManager.check_site_packages` (it imports
`site` locally, so the lookup succeeds there). -/
def check_site_packages (e : Env) : CheckOut SitePackages :=
  match e.sitePkgInfo with
  | .ok (p, ex, w, sz) => .ok { path := p, pathPresent := ex, writable := w, size := sz }
  | .error m => .err m

/-- The `python_checks` section.  Every sub-call of
`check_python_environment` catches its own exceptions, so the section is
always populated. -/
structure PythonChecks where
  python_version : String
  pip_version : String
  site_packages : CheckOut SitePackages
  installed_packages : List String
deriving Repr, DecidableEq

/-- Embedding of `TroubleshootManager.check_python_environment`. -/
def check_python_environment (e : Env) : PythonChecks :=
  { python_version := e.pythonVersion,
    pip_version := get_pip_version e,
    site_packages := check_site_packages e,
    installed_packages := get_installed_packages e }

/-- The `results['system_checks']` sub-dictionary: `run_all_checks` starts it
empty and then stores the resources check under the `'resources'` key. -/
structure SystemChecks where
  resources : Option (CheckOut Resources)
deriving Repr, DecidableEq

/-- View of the `results` mapping as `analyze_results` reads it: the two
top-level keys it subscripts may be absent (`none` models a missing key,
whose subscript raises `KeyError`). -/
structure ResultsView where
  system_checks : Option SystemChecks
  network_checks : Option NetworkResults
deriving Repr, DecidableEq

/-- Value of `results['system_checks'].get('resources', {}).get('disk_usage', 0)`:
a missing `'resources'` key or an error-marker dictionary yields the
default 0. -/
def reported_disk_usage (sc : SystemChecks) : Rat :=
  match sc.resources with
  | some (.ok res) => res.disk_usage
  | some (.err _) => 0
  | none => 0

/-- Body of `TroubleshootManager.analyze_results` up to its `except` clause:
`.error` models a raised exception (here, `KeyError` from a missing key). -/
def analyze_results_body (r : ResultsView) : Except String Bool :=
  match r.system_checks with
  | none => .error "KeyError: system_checks"
  | some sc =>
    let afterDisk := decide (reported_disk_usage sc > 90)
    match r.network_checks with
    | none => .error "KeyError: network_checks"
    | some net => .ok (afterDisk || !net.internet_connection)

/-- Embedding of `TroubleshootManager.analyze_results`: the `except` clause
returns `True` ("assume issues if analysis fails"). -/
def analyze_results (r : ResultsView) : Bool :=
  match analyze_results_body r with
  | .ok b => b
  | .error _ => true

/-- The full report built by one run of `run_all_checks` when its own body
does not raise. -/
structure RunResults where
  system_checks : SystemChecks
  network_checks : NetworkResults
  python_checks : PythonChecks
  issues_found : Bool
deriving Repr, DecidableEq

/-- Embedding of the body of `TroubleshootManager.run_all_checks`: the three
checks run in order, each section is stored, and `issues_found` is computed
by `analyze_results` on the assembled mapping. -/
def run_all_checks_body (e : Env) : RunResults :=
  let sysres := check_system_resources e
  let sc : SystemChecks := { resources := some sysres }
  let net := check_network_connectivity e
  let py := check_python_environment e
  { system_checks := sc, network_checks := net, python_checks := py,
    issues_found := analyze_results { system_checks := some sc, network_checks := some net } }

/-- Return value of `run_all_checks` as seen by `main`: either the report or
the `{'error': msg}` dictionary produced by its outer `except` clause
(modelled by an `internalExn` input, since no sub-check can raise into it). -/
inductive RunChecksResult where
  | ok (r : RunResults)
  | errorDict (msg : String)
deriving Repr, DecidableEq

/-- Embedding of `TroubleshootManager.run_all_checks` including its outer
`try`/`except`. -/
def run_all_checks (e : Env) (internalExn : Option String) : RunChecksResult :=
  match internalExn with
  | some m => .errorDict ("Error running diagnostic checks: " ++ m)
  | none => .ok (run_all_checks_body e)

/-- Disk utilization as reported in the run's own results mapping. -/
def run_reported_disk (e : Env) : Rat :=
  reported_disk_usage { resources := some (check_system_resources e) }

/-- Environment in which every check succeeds, with the given disk
utilization percentage. -/
def envHealthyDisk (diskPct : Rat) : Env :=
  { cpuPercent := .ok 10, memStats := .ok (40, 8),
    diskStats := .ok (diskPct, 100),
    sockConn := .ok (), dnsResolve := .ok (), pypiGet := .ok (200, 1/10),
    githubGet := .ok (200, 1/10), sslProbe := .ok (), httpProxy := "",
    httpsProxy := "", noProxy := "", googleGet := .ok (1/10),
    pipVersionOut := some ⟨0, "pip 24.0", ""⟩,
    pipListOut := some ⟨0, "Package Version\n------- -------\npsutil 5.9.0", ""⟩,
    sitePkgInfo := .ok ("site-packages", true, true, 5),
    pythonVersion := "3.11.0" }

/-- C1: in every run whose analysis completes without an internal exception
(which holds for every mapping `run_all_checks` itself assembles, as both
keys are always present), the `issues_found` flag is true iff the reported
disk utilization exceeds 90 or the basic reachability probe failed; no other
sub-result affects the flag, the right-hand side mentioning only those two.
In particular the flag is true at disk utilization 95 with every other check
passing, and false at disk utilization 50 with connectivity up. -/
theorem issues_found_iff_disk_or_internet :
    (∀ e : Env, (run_all_checks_body e).issues_found = true ↔
      (run_reported_disk e > 90 ∨
        (check_network_connectivity e).internet_connection = false)) ∧
    (run_all_checks_body (envHealthyDisk 95)).issues_found = true ∧
    (run_all_checks_body (envHealthyDisk 50)).issues_found = false := by
  refine ⟨fun e => ?_, by decide, by decide⟩
  simp only [run_all_checks_body, run_reported_disk, analyze_results,
    analyze_results_body, Bool.or_eq_true, decide_eq_true_eq,
    Bool.not_eq_eq_eq_not, Bool.not_true]

/-- Error messages one probe contributes to the `errors` list: none on
success, its labelled message on failure. -/
def probe_errors {α : Type} (label : String) : Except String α → List String
  | .ok _ => []
  | .error m => [label ++ m]

/-- The `errors` list as determined probe by probe: the labelled messages of
exactly the failed probes, in probe order. -/
def expected_network_errors (e : Env) : List String :=
  probe_errors "Internet connection error: " e.sockConn ++
  probe_errors "DNS resolution error: " e.dnsResolve ++
  probe_errors "PyPI access error: " e.pypiGet ++
  probe_errors "GitHub access error: " e.githubGet ++
  probe_errors "SSL error: " e.sslProbe ++
  probe_errors "Speed test error: " e.googleGet

/-- Access flag a `requests.get` probe yields: status code 200 on success,
`false` when the GET raised. -/
def http_access_flag : Except String (Nat × Rat) → Bool
  | .ok (code, _) => code == 200
  | .error _ => false

/-- Decomposition of `check_network_connectivity`: every field of the result
is a function of its own probe's outcome alone, and the error list collects
exactly the failed probes' messages. -/
theorem check_network_decomp (e : Env) :
    (check_network_connectivity e).internet_connection = isOkB e.sockConn ∧
    (check_network_connectivity e).dns_resolution = isOkB e.dnsResolve ∧
    (check_network_connectivity e).pypi_access = http_access_flag e.pypiGet ∧
    (check_network_connectivity e).github_access = http_access_flag e.githubGet ∧
    (check_network_connectivity e).ssl_working =
      (match e.sslProbe with | .ok _ => some true | .error _ => none) ∧
    (check_network_connectivity e).errors = expected_network_errors e := by
  obtain ⟨cpu, mem, dsk, sc, dn, pg, gg, sp, hp, hs, np, gl, pv, pl, spi, pyv⟩ := e
  rcases sc with u | m1 <;> rcases dn with u2 | m2 <;>
    rcases pg with ⟨c3, l3⟩ | m3 <;> rcases gg with ⟨c4, l4⟩ | m4 <;>
    rcases sp with u5 | m5 <;> rcases gl with l6 | m6 <;>
    simp [check_network_connectivity, initNetworkResults,
      expected_network_errors, probe_errors, http_access_flag, isOkB]

/-- C2: every sub-check failure is caught at its own scope.  The three
sections of the report are populated for every environment, including those
where any sub-check or probe raises; inside the network check, each probe's
recorded result depends only on that probe's own outcome and each failed
probe contributes exactly its own message to the error list, so no probe
failure causes an early exit and no check failure aborts `run_all_checks`. -/
theorem sub_check_failures_isolated (e : Env) :
    (run_all_checks_body e).system_checks.resources = some (check_system_resources e) ∧
    (run_all_checks_body e).network_checks = check_network_connectivity e ∧
    (run_all_checks_body e).python_checks = check_python_environment e ∧
    (check_network_connectivity e).internet_connection = isOkB e.sockConn ∧
    (check_network_connectivity e).dns_resolution = isOkB e.dnsResolve ∧
    (check_network_connectivity e).pypi_access = http_access_flag e.pypiGet ∧
    (check_network_connectivity e).github_access = http_access_flag e.githubGet ∧
    (check_network_connectivity e).ssl_working =
      (match e.sslProbe with | .ok _ => some true | .error _ => none) ∧
    (check_network_connectivity e).errors = expected_network_errors e := by
  refine ⟨rfl, rfl, rfl, ?_⟩
  exact (check_network_decomp e).2.2.2.2.2 ▸
    ⟨(check_network_decomp e).1, (check_network_decomp e).2.1,
     (check_network_decomp e).2.2.1, (check_network_decomp e).2.2.2.1,
     (check_network_decomp e).2.2.2.2.1, rfl⟩

/-- C8: when every network operation fails, the network section reports
`internet_connection = false`, `dns_resolution` is still determined solely
by the hostname-resolution probe (independent of the socket probe's
outcome), at least one exception string is recorded in `errors`, and
`run_all_checks` still populates `python_checks` from the local interpreter
introspection. -/
theorem network_disabled_report (e : Env)
    (hsock : isOkB e.sockConn = false)
    (hpypi : isOkB e.pypiGet = false)
    (hgit : isOkB e.githubGet = false)
    (hssl : isOkB e.sslProbe = false)
    (hgoogle : isOkB e.googleGet = false) :
    (check_network_connectivity e).internet_connection = false ∧
    (check_network_connectivity e).dns_resolution = isOkB e.dnsResolve ∧
    (check_network_connectivity e).errors ≠ [] ∧
    (run_all_checks_body e).python_checks = check_python_environment e ∧
    (check_python_environment e).python_version = e.pythonVersion ∧
    (check_python_environment e).pip_version = get_pip_version e ∧
    (check_python_environment e).installed_packages = get_installed_packages e := by
  obtain ⟨h1, h2, _, _, _, h6⟩ := check_network_decomp e
  refine ⟨h1.trans hsock, h2, ?_, rfl, rfl, rfl, rfl⟩
  rw [h6]
  rcases hc : e.sockConn with m | u
  · simp [expected_network_errors, hc, probe_errors]
  · rw [hc] at hsock; simp [isOkB] at hsock

/-- Environment in which every network probe raises while local
introspection succeeds. -/
def envAllDown : Env :=
  { cpuPercent := .ok 10, memStats := .ok (40, 8), diskStats := .ok (50, 100),
    sockConn := .error "timed out", dnsResolve := .error "gaierror",
    pypiGet := .error "ConnectionError", githubGet := .error "ConnectionError",
    sslProbe := .error "gaierror", httpProxy := "", httpsProxy := "",
    noProxy := "",
    googleGet := .error "ConnectionError",
    pipVersionOut := some ⟨0, "pip 24.0 from /usr/lib", ""⟩,
    pipListOut := some ⟨0, "Package Version\n------- -------\npsutil 5.9.0", ""⟩,
    sitePkgInfo := .ok ("/usr/lib/python3/site-packages", true, true, 1000),
    pythonVersion := "3.11.0" }

/-- Witness for C8 at a concrete all-probes-down environment. -/
theorem network_disabled_report_witness :
    (check_network_connectivity envAllDown).internet_connection = false ∧
    (check_network_connectivity envAllDown).dns_resolution = isOkB envAllDown.dnsResolve ∧
    (check_network_connectivity envAllDown).errors ≠ [] ∧
    (run_all_checks_body envAllDown).python_checks = check_python_environment envAllDown ∧
    (check_python_environment envAllDown).python_version = envAllDown.pythonVersion ∧
    (check_python_environment envAllDown).pip_version = get_pip_version envAllDown ∧
    (check_python_environment envAllDown).installed_packages = get_installed_packages envAllDown :=
  network_disabled_report envAllDown rfl rfl rfl rfl rfl

/-- C10: whenever the body of `analyze_results` raises while inspecting the
results mapping (for example on a missing top-level key), the `except`
clause catches it and the function returns `True`, even if no disk or
connectivity problem exists in the data that is present. -/
theorem analysis_failure_reports_issues (r : ResultsView)
    (h : isOkB (analyze_results_body r) = false) :
    analyze_results r = true := by
  revert h
  unfold analyze_results isOkB
  cases analyze_results_body r <;> simp

/-- Healthy network section: basic reachability succeeded. -/
def goodNet : NetworkResults :=
  { initNetworkResults with internet_connection := true, dns_resolution := true }

/-- Witness for C10: a mapping missing the `system_checks` key, whose
network data shows a working connection, still yields `issues_found = true`
because the analysis itself fails. -/
theorem analysis_failure_reports_issues_witness :
    isOkB (analyze_results_body { system_checks := none, network_checks := some goodNet }) = false ∧
    analyze_results { system_checks := none, network_checks := some goodNet } = true :=
  ⟨rfl, analysis_failure_reports_issues
    { system_checks := none, network_checks := some goodNet } rfl⟩

/-- One iteration of the PATH-extension loop in
`setup_environment_variables`: append the candidate only if it exists on
disk and its exact string is not already an entry of the accumulated
path list. -/
def path_step (ex : String → Bool) (acc : List String) (p : String) : List String :=
  if ex p = true ∧ p ∉ acc then acc ++ [p] else acc

/-- The PATH-extension step of `setup_environment_variables`: fold the
candidate script directories over the current PATH entry list (the split of
the PATH string on `os.pathsep`).  `ex` models `Path.exists`. -/
def extend_path (ex : String → Bool) (cands cur : List String) : List String :=
  cands.foldl (path_step ex) cur

theorem path_step_subset (ex : String → Bool) (acc : List String) (p : String) :
    acc ⊆ path_step ex acc p := by
  unfold path_step
  by_cases h : ex p = true ∧ p ∉ acc
  · simp [h]
  · simp [h]

theorem extend_path_mono (ex : String → Bool) (cands : List String) :
    ∀ cur : List String, cur ⊆ extend_path ex cands cur := by
  induction cands with
  | nil => intro cur; simp [extend_path]
  | cons c cs ih =>
    intro cur
    exact List.Subset.trans (path_step_subset ex cur c) (ih (path_step ex cur c))

theorem extend_path_complete (ex : String → Bool) (cands : List String) :
    ∀ cur p, p ∈ cands → ex p = true → p ∈ extend_path ex cands cur := by
  induction cands with
  | nil => intro cur p hp; simp at hp
  | cons c cs ih =>
    intro cur p hp hex
    rcases List.mem_cons.mp hp with rfl | hmem
    · refine extend_path_mono ex cs (path_step ex cur p) ?_
      unfold path_step
      by_cases hin : p ∈ cur
      · simp [hin]
      · simp [hex, hin]
    · exact ih (path_step ex cur c) p hmem hex

theorem extend_path_stable (ex : String → Bool) (cands : List String) :
    ∀ cur, (∀ p ∈ cands, ex p = true → p ∈ cur) → extend_path ex cands cur = cur := by
  induction cands with
  | nil => intro cur _; rfl
  | cons c cs ih =>
    intro cur hall
    have hstep : path_step ex cur c = cur := by
      unfold path_step
      by_cases hex : ex c = true
      · simp [hall c (List.mem_cons_self c cs) hex]
      · simp [hex]
    show extend_path ex cs (path_step ex cur c) = cur
    rw [hstep]
    exact ih cur (fun p hp hex => hall p (List.mem_cons_of_mem c hp) hex)

theorem path_step_nodup (ex : String → Bool) (acc : List String) (p : String)
    (h : acc.Nodup) : (path_step ex acc p).Nodup := by
  unfold path_step
  by_cases hc : ex p = true ∧ p ∉ acc
  · rw [if_pos hc, List.nodup_append]
    refine ⟨h, List.nodup_singleton p, fun a ha hb => ?_⟩
    rw [List.mem_singleton] at hb
    exact hc.2 (hb ▸ ha)
  · rw [if_neg hc]; exact h

theorem extend_path_nodup (ex : String → Bool) (cands : List String) :
    ∀ cur, cur.Nodup → (extend_path ex cands cur).Nodup := by
  induction cands with
  | nil => intro cur h; exact h
  | cons c cs ih =>
    intro cur h
    exact ih (path_step ex cur c) (path_step_nodup ex cur c h)

/-- C4: the body of the PATH-extension loop never appends a candidate whose
exact string is already an entry of the accumulated PATH, and the whole
extension step is idempotent: for every starting PATH value (duplicate
entries included), every candidate list, and every disk state, running the
step twice yields the same final PATH entry list as running it once. -/
theorem path_extension_idempotent (ex : String → Bool) (cands cur : List String) :
    (∀ acc p, p ∈ acc → path_step ex acc p = acc) ∧
    extend_path ex cands (extend_path ex cands cur) = extend_path ex cands cur :=
  ⟨fun acc p hp => if_neg (fun hc => hc.2 hp),
   extend_path_stable ex cands (extend_path ex cands cur)
      (fun p hp hex => extend_path_complete ex cands cur p hp hex)⟩

/-- Witness for C4 at a concrete PATH with a duplicate entry: the loop body
refuses the already-present candidate and the second run adds nothing. -/
theorem path_extension_idempotent_witness :
    path_step (fun _ => true) ["c", "a", "c"] "a" = ["c", "a", "c"] ∧
    extend_path (fun _ => true) ["a", "b"]
        (extend_path (fun _ => true) ["a", "b"] ["c", "a", "c"]) =
      extend_path (fun _ => true) ["a", "b"] ["c", "a", "c"] :=
  ⟨(path_extension_idempotent (fun _ => true) ["a", "b"] ["c", "a", "c"]).1
      ["c", "a", "c"] "a" (by decide),
   (path_extension_idempotent (fun _ => true) ["a", "b"] ["c", "a", "c"]).2⟩

/-- Names bound at module level of `troubleshoot.py` by its import block
(lines 1-14): the bare-module imports plus the names bound by the three
`from ... import ...` lines.  `import site` appears only locally inside
`check_site_packages`, which in Python binds a function-local name and
leaves the module globals untouched. -/
def module_level_imports : List String :=
  ["os", "sys", "subprocess", "platform", "time", "psutil", "socket",
   "datetime", "logging", "json", "requests", "traceback", "Path",
   "Optional", "Dict", "List", "Union"]

/-- Resolution of a bare name used inside a method of `troubleshoot.py`
against the module globals; an unbound name raises `NameError`. -/
def lookup_module_global (name : String) : Except String Unit :=
  if name ∈ module_level_imports then .ok ()
  else .error ("NameError: name " ++ name ++ " is not defined")

/-- The two environment variables `setup_environment_variables` mutates:
the PATH entry list and the optional PYTHONPATH value (`none` models an
unset variable). -/
structure EnvVars where
  searchPath : List String
  pythonpath : Option String
deriving Repr, DecidableEq

/-- Embedding of `TroubleshootManager.setup_environment_variables`: first
the PATH-extension step, then the PYTHONPATH branch, which when PYTHONPATH
is unset evaluates the bare name `site`; if that lookup raises, the
function-level `except` catches it and returns `False` with PYTHONPATH
still unset.  (The Windows registry writes sit in their own inner
`try`/`except` and do not affect the returned state.) -/
def setup_environment_variables (ex : String → Bool) (cands sitePkgs : List String)
    (st : EnvVars) : Bool × EnvVars :=
  let st1 : EnvVars := { st with searchPath := extend_path ex cands st.searchPath }
  match st1.pythonpath with
  | some _ => (true, st1)
  | none =>
    match lookup_module_global "site" with
    | .error _ => (false, st1)
    | .ok _ =>
      let sps := sitePkgs.filter (fun p => (p.splitOn "site-packages").length > 1)
      if sps.isEmpty then (true, st1)
      else (true, { st1 with pythonpath := some (String.intercalate ";" sps) })

/-- C7: `site` is not among the module-level imports, so whenever PYTHONPATH
is unset the PYTHONPATH branch fails with `NameError`, the enclosing handler
catches it, `setup_environment_variables` returns `False`, and PYTHONPATH is
left unset (only the in-process PATH extension has taken effect). -/
theorem missing_site_import_fails_pythonpath
    (ex : String → Bool) (cands sitePkgs : List String) (st : EnvVars)
    (h : st.pythonpath = none) :
    "site" ∉ module_level_imports ∧
    setup_environment_variables ex cands sitePkgs st =
      (false, { st with searchPath := extend_path ex cands st.searchPath }) ∧
    (setup_environment_variables ex cands sitePkgs st).2.pythonpath = none := by
  obtain ⟨sp, pp⟩ := st
  simp only [EnvVars.pythonpath] at h
  subst h
  exact ⟨by decide, rfl, rfl⟩

/-- Witness for C7 at a concrete unset-PYTHONPATH state. -/
theorem missing_site_import_fails_pythonpath_witness :
    "site" ∉ module_level_imports ∧
    setup_environment_variables (fun _ => false) [] [] { searchPath := ["x"], pythonpath := none } =
      (false, { searchPath := extend_path (fun _ => false) [] ["x"], pythonpath := none }) ∧
    (setup_environment_variables (fun _ => false) [] [] { searchPath := ["x"], pythonpath := none }).2.pythonpath = none :=
  missing_site_import_fails_pythonpath (fun _ => false) [] []
    { searchPath := ["x"], pythonpath := none } rfl

/-- The steps of `repair_environment`, in source order. -/
inductive RepairStep where
  | fixPipStep
  | pyqtUninstall
  | pyqtReinstall
  | envVarsSetup
  | verifyStep
deriving Repr, DecidableEq

/-- Inputs determining one run of the repair sequence.  `run_command` never
raises (it returns `None` on any failure), so inside `fix_pip` and the PyQt
block only exceptions raised by the surrounding Python statements matter;
`fixPipRaises` models an exception escaping the body of `fix_pip` into its
`except` clause (which then returns `False`). -/
structure RepairEnv where
  fixPipRaises : Bool
  uninstallOut : Option CompletedProcess
  reinstallOut : Option CompletedProcess
  envVarsResult : Bool
deriving Repr, DecidableEq

/-- Return value of `TroubleshootManager.fix_pip`: `True` unless its body
raised (every `run_command` failure inside it is swallowed). -/
def fix_pip_result (re : RepairEnv) : Bool := !re.fixPipRaises

/-- Embedding of `TroubleshootManager.repair_environment` as the pair of its
return value and the list of steps it attempts: `fix_pip` runs first and
`if not self.fix_pip(): return False` aborts the sequence; afterwards the
PyQt block (own `try`/`except`), `setup_environment_variables` (result
ignored) and `verify_installation` (catches internally) all run regardless
of their outcomes. -/
def repair_environment (re : RepairEnv) : Bool × List RepairStep :=
  if fix_pip_result re = false then (false, [RepairStep.fixPipStep])
  else (true, [RepairStep.fixPipStep, RepairStep.pyqtUninstall, RepairStep.pyqtReinstall,
               RepairStep.envVarsSetup, RepairStep.verifyStep])

/-- Repair run in which `fix_pip` fails. -/
def repairEnvFixPipFails : RepairEnv :=
  { fixPipRaises := true, uninstallOut := none, reinstallOut := none,
    envVarsResult := false }

/-- Counterexample to C3 as stated: when the `fix_pip` sub-step fails, the
PyQt6 reinstall, the environment-variable setup and the verification are
NOT attempted — `repair_environment` returns `False` immediately instead of
proceeding to the next repair step. -/
theorem repair_aborts_on_fix_pip_failure :
    (repair_environment repairEnvFixPipFails).1 = false ∧
    RepairStep.pyqtUninstall ∉ (repair_environment repairEnvFixPipFails).2 ∧
    RepairStep.pyqtReinstall ∉ (repair_environment repairEnvFixPipFails).2 ∧
    RepairStep.envVarsSetup ∉ (repair_environment repairEnvFixPipFails).2 ∧
    RepairStep.verifyStep ∉ (repair_environment repairEnvFixPipFails).2 := by
  decide

/-- C3 amended: the repair steps after `fix_pip` are fire-and-forget — for
every combination of PyQt command outcomes and environment-variable-setup
result the whole sequence is attempted with no rollback and the function
returns `True` — but a `fix_pip` failure is the exception: it aborts the
sequence after the first step and returns `False`. -/
theorem repair_steps_characterized (re : RepairEnv) :
    repair_environment re =
      if re.fixPipRaises then (false, [RepairStep.fixPipStep])
      else (true, [RepairStep.fixPipStep, RepairStep.pyqtUninstall, RepairStep.pyqtReinstall,
                   RepairStep.envVarsSetup, RepairStep.verifyStep]) := by
  cases hf : re.fixPipRaises <;>
    simp [repair_environment, fix_pip_result, hf]

/-- Timestamp with second granularity, as captured by
`datetime.now().strftime("%Y%m%d_%H%M%S")`. -/
structure Timestamp where
  year : Nat
  month : Nat
  day : Nat
  hour : Nat
  minute : Nat
  second : Nat
deriving Repr, DecidableEq

/-- Field bounds under which the strftime rendering is faithful (each
two-digit field below 100, the year below 10000); real datetimes satisfy
far tighter bounds. -/
abbrev valid_timestamp (t : Timestamp) : Prop :=
  t.year < 10000 ∧ t.month < 100 ∧ t.day < 100 ∧ t.hour < 100 ∧
    t.minute < 100 ∧ t.second < 100

/-- Two-digit zero-padded decimal rendering, as digit values. -/
def pad2 (n : Nat) : List Nat := [n / 10, n % 10]

/-- Four-digit zero-padded decimal rendering, as digit values. -/
def pad4 (n : Nat) : List Nat := [n / 1000, n / 100 % 10, n / 10 % 10, n % 10]

/-- Character sequence of `strftime("%Y%m%d_%H%M%S")`. -/
def timestamp_chars (t : Timestamp) : List Char :=
  (pad4 t.year ++ pad2 t.month ++ pad2 t.day).map Nat.digitChar ++ ['_'] ++
    (pad2 t.hour ++ pad2 t.minute ++ pad2 t.second).map Nat.digitChar

/-- The timestamp string used in the backup filename. -/
def format_timestamp (t : Timestamp) : String := String.mk (timestamp_chars t)

/-- The backup filename `pip_list_{timestamp}.txt` built by `fix_pip`. -/
def backup_filename (t : Timestamp) : String :=
  "pip_list_" ++ format_timestamp t ++ ".txt"

theorem digitChar_inj_lt :
    ∀ a < 10, ∀ b < 10, Nat.digitChar a = Nat.digitChar b → a = b := by decide

/-- Injectivity of the strftime rendering on valid timestamps: the filename
determines year, month, day, hour, minute and second. -/
theorem format_timestamp_inj (t1 t2 : Timestamp)
    (h1 : valid_timestamp t1) (h2 : valid_timestamp t2)
    (h : format_timestamp t1 = format_timestamp t2) : t1 = t2 := by
  obtain ⟨y1, mo1, d1, hr1, mi1, s1⟩ := t1
  obtain ⟨y2, mo2, d2, hr2, mi2, s2⟩ := t2
  replace h1 : y1 < 10000 ∧ mo1 < 100 ∧ d1 < 100 ∧ hr1 < 100 ∧ mi1 < 100 ∧ s1 < 100 := h1
  replace h2 : y2 < 10000 ∧ mo2 < 100 ∧ d2 < 100 ∧ hr2 < 100 ∧ mi2 < 100 ∧ s2 < 100 := h2
  obtain ⟨hy1, hmo1, hd1, hhr1, hmi1, hs1⟩ := h1
  obtain ⟨hy2, hmo2, hd2, hhr2, hmi2, hs2⟩ := h2
  rw [format_timestamp, format_timestamp] at h
  have hd : timestamp_chars ⟨y1, mo1, d1, hr1, mi1, s1⟩ =
      timestamp_chars ⟨y2, mo2, d2, hr2, mi2, s2⟩ := congrArg String.data h
  simp only [timestamp_chars, pad4, pad2, List.map_append,
    List.map_cons, List.map_nil, List.cons_append, List.nil_append,
    List.append_nil, List.cons.injEq, and_true] at hd
  obtain ⟨e1, e2, e3, e4, e5, e6, e7, e8, _, e9, e10, e11, e12, e13, e14⟩ := hd
  have q1 := digitChar_inj_lt _ (by omega) _ (by omega) e1
  have q2 := digitChar_inj_lt _ (by omega) _ (by omega) e2
  have q3 := digitChar_inj_lt _ (by omega) _ (by omega) e3
  have q4 := digitChar_inj_lt _ (by omega) _ (by omega) e4
  have q5 := digitChar_inj_lt _ (by omega) _ (by omega) e5
  have q6 := digitChar_inj_lt _ (by omega) _ (by omega) e6
  have q7 := digitChar_inj_lt _ (by omega) _ (by omega) e7
  have q8 := digitChar_inj_lt _ (by omega) _ (by omega) e8
  have q9 := digitChar_inj_lt _ (by omega) _ (by omega) e9
  have q10 := digitChar_inj_lt _ (by omega) _ (by omega) e10
  have q11 := digitChar_inj_lt _ (by omega) _ (by omega) e11
  have q12 := digitChar_inj_lt _ (by omega) _ (by omega) e12
  have q13 := digitChar_inj_lt _ (by omega) _ (by omega) e13
  have q14 := digitChar_inj_lt _ (by omega) _ (by omega) e14
  simp only [Timestamp.mk.injEq]
  refine ⟨by omega, by omega, by omega, by omega, by omega, by omega⟩

/-- The pip commands issued by the repair sequence, in source order
(`fix_pip`, then the PyQt block of `repair_environment`). -/
inductive PipCommand where
  | freezeBackup (filename : String)
  | upgradePip
  | upgradeSetuptoolsWheel
  | purgeCache
  | uninstallPyQt6
  | reinstallPyQt6
deriving Repr, DecidableEq

/-- Whether a command upgrades, uninstalls or reinstalls packages (the
backup dump and the cache purge mutate no installed package). -/
def PipCommand.mutates : PipCommand → Bool
  | .upgradePip => true
  | .upgradeSetuptoolsWheel => true
  | .uninstallPyQt6 => true
  | .reinstallPyQt6 => true
  | _ => false

/-- Commands issued by `fix_pip`, in order: the freeze backup first, then
the three maintenance commands. -/
def fix_pip_commands (t : Timestamp) : List PipCommand :=
  [.freezeBackup (backup_filename t), .upgradePip, .upgradeSetuptoolsWheel, .purgeCache]

/-- Commands of a full run of `repair_environment` with timestamp `t`:
`fix_pip` runs first, then the PyQt uninstall/reinstall pair. -/
def repair_environment_commands (t : Timestamp) : List PipCommand :=
  fix_pip_commands t ++ [.uninstallPyQt6, .reinstallPyQt6]

/-- C5: in every run of the repair sequence the installed-package backup
(the freeze dump) is the very first command, strictly before every upgrade,
uninstall or reinstall command (which all sit at positive indices), and its
filename encodes the run timestamp injectively down to the second. -/
theorem backup_first_and_second_granularity :
    (∀ t : Timestamp,
      (repair_environment_commands t).head? =
          some (.freezeBackup (backup_filename t)) ∧
      ∀ i c, (repair_environment_commands t).get? i = some c →
          c.mutates = true → 0 < i) ∧
    (∀ t1 t2 : Timestamp, valid_timestamp t1 → valid_timestamp t2 →
      format_timestamp t1 = format_timestamp t2 → t1 = t2) := by
  refine ⟨fun t => ⟨rfl, fun i c hc hm => ?_⟩, format_timestamp_inj⟩
  match i with
  | 0 =>
    have hc0 : c = PipCommand.freezeBackup (backup_filename t) :=
      (Option.some.injEq _ _ ▸ hc).symm
    rw [hc0] at hm
    exact absurd hm (by simp [PipCommand.mutates])
  | Nat.succ j => exact Nat.succ_pos j

/-- Concrete timestamp for the C5 witness. -/
def ts0 : Timestamp :=
  { year := 2025, month := 10, day := 12, hour := 13, minute := 45, second := 59 }

/-- Witness for C5: the backup command leads the concrete trace, the
upgrade command at index 1 indeed sits at a positive index, and the
timestamp injectivity applies at a concrete valid timestamp. -/
theorem backup_first_and_second_granularity_witness :
    (repair_environment_commands ts0).head? =
        some (.freezeBackup (backup_filename ts0)) ∧
    0 < 1 ∧ ts0 = ts0 :=
  ⟨(backup_first_and_second_granularity.1 ts0).1,
   (backup_first_and_second_granularity.1 ts0).2 1 .upgradePip rfl rfl,
   backup_first_and_second_granularity.2 ts0 ts0 (by decide) (by decide) rfl⟩

/-- Kinds of external calls the pipeline makes. -/
inductive CallKind where
  | processSpawn
  | socketConnect
  | hostnameLookup
  | httpGet
deriving Repr, DecidableEq

/-- One external call site of `troubleshoot.py`, with the timeout its call
passes (in seconds; `none` when the call passes no timeout argument). -/
structure ExternalCall where
  site : String
  kind : CallKind
  timeoutSeconds : Option Nat
deriving Repr, DecidableEq

/-- The external call sites of the diagnostic and repair pipeline, in
source order: every process spawn goes through `run_command`
(subprocess.run with timeout 60), and the network check makes six direct
calls with the timeout arguments written at each call site. -/
def pipeline_external_calls : List ExternalCall :=
  [ { site := "subprocess.run in run_command", kind := .processSpawn,
      timeoutSeconds := some 60 },
    { site := "socket.create_connection to 8.8.8.8 port 53",
      kind := .socketConnect, timeoutSeconds := some 3 },
    { site := "socket.gethostbyname python.org", kind := .hostnameLookup,
      timeoutSeconds := none },
    { site := "requests.get pypi.org", kind := .httpGet,
      timeoutSeconds := some 5 },
    { site := "requests.get github.com", kind := .httpGet,
      timeoutSeconds := some 5 },
    { site := "socket.create_connection to python.org port 443 for the TLS probe",
      kind := .socketConnect, timeoutSeconds := none },
    { site := "requests.get www.google.com", kind := .httpGet,
      timeoutSeconds := some 5 } ]

/-- The bound C6 claims for one call: process spawns time out at 60
seconds, and socket connections and HTTP GETs at a fixed value between 3
and 5 seconds. -/
def timeout_bounded_as_claimed (c : ExternalCall) : Bool :=
  match c.kind with
  | .processSpawn => c.timeoutSeconds == some 60
  | .socketConnect =>
      match c.timeoutSeconds with
      | some t => decide (3 ≤ t) && decide (t ≤ 5)
      | none => false
  | .httpGet =>
      match c.timeoutSeconds with
      | some t => decide (3 ≤ t) && decide (t ≤ 5)
      | none => false
  | .hostnameLookup => true

/-- Counterexample to C6 as stated: not every socket connection in the
network check passes a timeout — the TLS-probe connection to
python.org:443 passes none and can block indefinitely. -/
theorem tls_probe_socket_has_no_timeout :
    ¬ (∀ c ∈ pipeline_external_calls, timeout_bounded_as_claimed c = true) := by
  decide

/-- C6 amended: every process spawn uses a 60-second timeout and every HTTP
GET a 5-second timeout; the basic reachability socket connect uses a
3-second timeout, but the TLS-probe socket connection passes no timeout at
all, so one external call of the network check is not bounded by a fixed
timeout. -/
theorem external_timeouts_characterized :
    (∀ c ∈ pipeline_external_calls, c.kind = CallKind.processSpawn →
        c.timeoutSeconds = some 60) ∧
    (∀ c ∈ pipeline_external_calls, c.kind = CallKind.httpGet →
        c.timeoutSeconds = some 5) ∧
    (∀ c ∈ pipeline_external_calls, c.kind = CallKind.socketConnect →
        c.timeoutSeconds = some 3 ∨ c.timeoutSeconds = none) ∧
    (∃ c ∈ pipeline_external_calls,
        c.kind = CallKind.socketConnect ∧ c.timeoutSeconds = none) := by
  decide

/-- Witness for C6 amended at the concrete spawn call site. -/
theorem external_timeouts_characterized_witness :
    ({ site := "subprocess.run in run_command", kind := .processSpawn,
       timeoutSeconds := some 60 } : ExternalCall).timeoutSeconds = some 60 :=
  external_timeouts_characterized.1 _ (by decide) rfl

/-- Events of one run of `main`, in order. -/
inductive MainEvent where
  | diagnosticsRun (r : RunChecksResult)
  | reportCreated
  | repairInvoked (success : Bool)
  | summaryPrinted
  | criticalError (msg : String)
deriving Repr

/-- Embedding of `main`: when initialization succeeds, run the diagnostics,
build the system report, invoke the repair sequence and print the summary,
with no conditional between those steps; an initialization failure is
re-raised into the entry-point handler. -/
def main_trace (initExn : Option String) (e : Env) (internalExn : Option String)
    (re : RepairEnv) : List MainEvent :=
  match initExn with
  | some m => [.criticalError m]
  | none =>
      [.diagnosticsRun (run_all_checks e internalExn),
       .reportCreated,
       .repairInvoked (repair_environment re).1,
       .summaryPrinted]

/-- C9: in every run of the entry point whose initialization succeeds, the
repair sequence is invoked after the diagnostic checks complete,
unconditionally: the trace holds the repair invocation two positions after
the diagnostics for every diagnostics outcome — any value of the
`issues_found` flag, and also when `run_all_checks` returned its error
dictionary (`internalExn = some m`). -/
theorem repair_invoked_unconditionally (e : Env) (internalExn : Option String)
    (re : RepairEnv) :
    (main_trace none e internalExn re).get? 0 =
        some (.diagnosticsRun (run_all_checks e internalExn)) ∧
    (main_trace none e internalExn re).get? 2 =
        some (.repairInvoked (repair_environment re).1) ∧
    (main_trace none e (some "boom") re).get? 2 =
        some (.repairInvoked (repair_environment re).1) :=
  ⟨rfl, rfl, rfl⟩

end PyDoctor
